import Mathlib

/-!
Verification of the Simple Git sync controller (src/simple_git.py).

The application shells out to an external tool; every subprocess call is
modelled by a `ProcOutcome` (completed with exit code and captured output,
timed out, or an exception carrying a message).  Each controller operation
is then a pure function of the outcomes of the subprocess calls it makes,
returning both its user-visible result and the list of steps it actually
executed, so that step ordering and abort-on-first-failure are visible in
the model.

Python string primitives used by the source (`strip`, `lower`,
`splitlines`, substring membership, truthiness of a string) are modelled
by structurally recursive functions over `List Char` so that every
definition evaluates by kernel reduction.
-/

/-- Model of Python str.strip: drop whitespace from both ends. -/
def strTrim (s : String) : String :=
  String.mk (((s.data.dropWhile Char.isWhitespace).reverse.dropWhile
    Char.isWhitespace).reverse)

/-- ASCII lower-casing of one character, as Python str.lower does on the
ASCII range the tool emits. -/
def lowerChar (c : Char) : Char :=
  if 65 ≤ c.toNat && c.toNat ≤ 90 then Char.ofNat (c.toNat + 32) else c

/-- Model of Python str.lower. -/
def strLower (s : String) : String :=
  String.mk (s.data.map lowerChar)

/-- Substring occurrence on character lists: pat occurs somewhere in s. -/
def subOccurs (pat : List Char) : List Char → Bool
  | [] => pat.isEmpty
  | c :: cs => pat.isPrefixOf (c :: cs) || subOccurs pat cs

/-- Model of the Python substring test pat in s. -/
def containsSub (s pat : String) : Bool :=
  subOccurs pat.data s.data

/-- Split a character list at every occurrence of sep. -/
def splitOnChar (sep : Char) : List Char → List (List Char)
  | [] => [[]]
  | c :: cs =>
    match splitOnChar sep cs with
    | [] => [[]]
    | r :: rs => if c = sep then [] :: r :: rs else (c :: r) :: rs

/-- Model of Python str.splitlines on the newline-separated, pre-trimmed
output the git helper returns.  On the empty string this gives one empty
line where Python gives none; no use below distinguishes the two, since
the tracked path is non-empty and blank lines are filtered before
counting. -/
def strLines (s : String) : List String :=
  (splitOnChar '\n' s.data).map String.mk

/-- Model of Python string truthiness: a string tests false iff empty. -/
def strIsEmpty (s : String) : Bool :=
  s.data.isEmpty

/-- Uniform result of the git helper: (ok, stdout, stderr), output trimmed.
Mirrors the tuple returned by git in src/simple_git.py. -/
structure GitResult where
  ok : Bool
  stdout : String
  stderr : String
deriving Repr, DecidableEq

/-- Outcome of one subprocess invocation: normal completion with an exit
code and captured output, a timeout, or a raised exception carrying its
message string. -/
inductive ProcOutcome where
  | completed (returncode : Int) (stdout : String) (stderr : String)
  | timedOut
  | raised (msg : String)
deriving Repr, DecidableEq

/-- Embedding of the git helper (src/simple_git.py lines 61-70): success
iff exit code zero with both streams trimmed; a timeout becomes a failure
with message Command timed out; any other exception becomes a failure
carrying the exception message. -/
def git : ProcOutcome → GitResult
  | .completed rc so se => ⟨rc == 0, strTrim so, strTrim se⟩
  | .timedOut => ⟨false, "", "Command timed out"⟩
  | .raised e => ⟨false, "", e⟩

/-- Embedding of test_remote (lines 73-84): connectivity probe reduced to
a (ok, message) pair. -/
def test_remote : ProcOutcome → Bool × String
  | .completed rc _ se =>
    if rc == 0 then (true, "Connection successful")
    else (false, if strIsEmpty (strTrim se) then "Connection failed" else strTrim se)
  | .timedOut => (false, "Connection timed out")
  | .raised e => (false, e)

/-- The four subprocess steps of clone_sparse, in source order. -/
inductive CloneStep where
  | cloneRepo
  | sparseInitStep
  | sparseSetStep
  | checkoutStep
deriving Repr, DecidableEq

/-- Outcomes of the four subprocess calls clone_sparse may make. -/
structure CloneTrace where
  cloneOut : ProcOutcome
  sparseInitOut : ProcOutcome
  sparseSetOut : ProcOutcome
  checkoutOut : ProcOutcome
deriving Repr, DecidableEq

/-- Error produced by the initial clone subprocess of clone_sparse
(lines 96-103): none on exit code zero, otherwise the trimmed stderr, a
Clone timed out message, or the exception message. -/
def cloneCmdErr : ProcOutcome → Option String
  | .completed rc _ se => if rc == 0 then none else some (strTrim se)
  | .timedOut => some "Clone timed out"
  | .raised e => some e

/-- Embedding of clone_sparse (lines 87-117) paired with the list of
steps actually executed: clone, then sparse-checkout init --no-cone, then
sparse-checkout set, then checkout of the branch, aborting at the first
failure with that step message. -/
def cloneSparseRun (t : CloneTrace) : (Bool × String) × List CloneStep :=
  match cloneCmdErr t.cloneOut with
  | some e => ((false, e), [.cloneRepo])
  | none =>
    let r1 := git t.sparseInitOut
    if !r1.ok then
      ((false, "sparse-checkout init failed: " ++ r1.stderr),
       [.cloneRepo, .sparseInitStep])
    else
      let r2 := git t.sparseSetOut
      if !r2.ok then
        ((false, "sparse-checkout set failed: " ++ r2.stderr),
         [.cloneRepo, .sparseInitStep, .sparseSetStep])
      else
        let r3 := git t.checkoutOut
        if !r3.ok then
          ((false, "checkout failed: " ++ r3.stderr),
           [.cloneRepo, .sparseInitStep, .sparseSetStep, .checkoutStep])
        else
          ((true, ""),
           [.cloneRepo, .sparseInitStep, .sparseSetStep, .checkoutStep])

/-- Result component of clone_sparse, matching the source return value. -/
def clone_sparse (t : CloneTrace) : Bool × String :=
  (cloneSparseRun t).1

/-- Human name of each bootstrap step as it appears in the messages. -/
def cloneStepName : CloneStep → String
  | .cloneRepo => "Clone"
  | .sparseInitStep => "sparse-checkout init"
  | .sparseSetStep => "sparse-checkout set"
  | .checkoutStep => "checkout"

/-- Log line written by the clone completion handler
(SimpleGitApp._clone_done, lines 442-451). -/
def cloneDoneLog (ok : Bool) (err : String) : String :=
  if ok then "Clone complete." else "Clone failed: " ++ err

/-- Embedding of SimpleGitApp._do_clone (lines 428-431): the busy flag is
set and the clone worker is started unconditionally; the incoming flag is
not consulted.  Returns the new busy flag and the launched run. -/
def doCloneRun (_busy : Bool) (t : CloneTrace) : Bool × Option ((Bool × String) × List CloneStep) :=
  (true, some (cloneSparseRun t))

/-- The fixed tracked path of the sparse variant (line 18). -/
def TRACKED_PATH : String := "images/portfolio"

/-- Tool calls the ensure-sparse-checkout step may make. -/
inductive EnsureCall where
  | listQuery
  | reInit
  | reSet
deriving Repr, DecidableEq

/-- Outcomes of the subprocess calls the ensure step may make. -/
structure EnsureTrace where
  listOut : ProcOutcome
  reInitOut : ProcOutcome
  reSetOut : ProcOutcome
deriving Repr, DecidableEq

/-- Condition under which the ensure step is a no-op
(SimpleGitApp._ensure_sparse_checkout, line 374): the list query succeeds
and its output lines contain the tracked path. -/
def ensureCond (t : EnsureTrace) : Bool :=
  (git t.listOut).ok && (strLines (git t.listOut).stdout).contains TRACKED_PATH

/-- Embedding of SimpleGitApp._ensure_sparse_checkout together with its
worker (lines 371-395), paired with the list of tool calls made: when the
sparse-checkout list already names the tracked path, only the list query
runs and the step succeeds at once; otherwise init --no-cone runs and, if
it succeeds, set with the tracked path. -/
def ensureSparseRun (t : EnsureTrace) : (Bool × String) × List EnsureCall :=
  if ensureCond t then ((true, ""), [.listQuery])
  else
    let r1 := git t.reInitOut
    if !r1.ok then
      ((false, "sparse-checkout init failed: " ++ r1.stderr),
       [.listQuery, .reInit])
    else
      let r2 := git t.reSetOut
      if !r2.ok then
        ((false, "sparse-checkout set failed: " ++ r2.stderr),
         [.listQuery, .reInit, .reSet])
      else
        ((true, ""), [.listQuery, .reInit, .reSet])

/-- Embedding of the launch decision of SimpleGitApp._ensure_sparse_checkout
(lines 371-383) with the busy flag made explicit: the incoming flag is
never consulted; the list query always runs, the no-op path leaves the
flag unchanged, and the configure path sets the flag before its worker
starts (paralleling doCloneRun, the returned flag is the one in force as
the worker is launched).  The second component would be none for an
ignored request; no branch produces none. -/
def ensureSparseStart (busy : Bool) (t : EnsureTrace) :
    Bool × Option ((Bool × String) × List EnsureCall) :=
  if ensureCond t then (busy, some (ensureSparseRun t))
  else (true, some (ensureSparseRun t))

/-- Configuration JSON object before defaulting: each recognized key is
present (some) or absent (none); unrecognized keys are carried opaquely. -/
structure ConfigIn where
  remote_url : Option String
  repo_path : Option String
  branch : Option String
  commit_message : Option String
  extra : List (String × String)
deriving Repr, DecidableEq

/-- Configuration after defaulting: every recognized key has a value. -/
structure Config where
  remote_url : String
  repo_path : String
  branch : String
  commit_message : String
  extra : List (String × String)
deriving Repr, DecidableEq

/-- The DEFAULT_CONFIG table (lines 24-29). -/
def DEFAULT_CONFIG : Config :=
  ⟨"", "", "main", "Update portfolio via Simple Git", []⟩

/-- Embedding of the defaulting phase of load_config (lines 46-47): for
each recognized key, setdefault keeps a present value and substitutes the
default for an absent one; other keys are untouched. -/
def load_config (c : ConfigIn) : Config :=
  ⟨c.remote_url.getD DEFAULT_CONFIG.remote_url,
   c.repo_path.getD DEFAULT_CONFIG.repo_path,
   c.branch.getD DEFAULT_CONFIG.branch,
   c.commit_message.getD DEFAULT_CONFIG.commit_message,
   c.extra⟩

/-- Classification tags used by the status list (lines 499-507). -/
inductive StatusTag where
  | okTag
  | changedTag
  | missingTag
  | errorTag
deriving Repr, DecidableEq

/-- Number of non-blank lines of the porcelain output (line 504). -/
def changedCount (stdout : String) : Nat :=
  ((strLines stdout).filter (fun l => !(strIsEmpty (strTrim l)))).length

/-- Embedding of the classification portion of
SimpleGitApp._refresh_status (lines 497-507): a failed query is an error;
otherwise an absent tracked path is missing; otherwise non-empty output is
changed with a non-blank-line count; otherwise up to date. -/
def classifyStatus (statusOut : ProcOutcome) (trackedExists : Bool) : StatusTag × String :=
  let r := git statusOut
  if !r.ok then (.errorTag, "unknown")
  else if !trackedExists then (.missingTag, "missing")
  else if !(strIsEmpty r.stdout) then
    (.changedTag, toString (changedCount r.stdout) ++ " file(s) changed — ready to push")
  else (.okTag, "up to date")

/-- The four subprocess steps of the push worker, in source order. -/
inductive PushStep where
  | pullStep
  | stageStep
  | commitStep
  | pushStep
deriving Repr, DecidableEq

/-- Outcomes of the four subprocess calls the push worker may make. -/
structure PushTrace where
  pullOut : ProcOutcome
  addOut : ProcOutcome
  commitOut : ProcOutcome
  pushOut : ProcOutcome
deriving Repr, DecidableEq

/-- Embedding of SimpleGitApp._do_push (lines 560-593) paired with the
list of steps actually executed.  Pull, stage, commit, push in order,
aborting at the first failure; a failed commit whose combined
stderr ++ stdout contains nothing to commit (lower-cased) is recoded as
success; a reached push step reports Push complete. on success and
stdout-else-stderr on failure. -/
def doPushRun (t : PushTrace) : (Bool × String) × List PushStep :=
  let rp := git t.pullOut
  if !rp.ok then
    ((false, "Pull failed before push: " ++ rp.stderr), [.pullStep])
  else
    let ra := git t.addOut
    if !ra.ok then
      ((false, "Stage failed: " ++ ra.stderr), [.pullStep, .stageStep])
    else
      let rc := git t.commitOut
      if !rc.ok then
        if containsSub (strLower (rc.stderr ++ rc.stdout)) "nothing to commit" then
          ((true, "Nothing new to commit."), [.pullStep, .stageStep, .commitStep])
        else
          ((false, "Commit failed: " ++ rc.stderr), [.pullStep, .stageStep, .commitStep])
      else
        let rpu := git t.pushOut
        let output := if strIsEmpty rpu.stdout then rpu.stderr else rpu.stdout
        ((rpu.ok, if rpu.ok then "Push complete." else output),
         [.pullStep, .stageStep, .commitStep, .pushStep])

/-- Model of SimpleGitApp._repo_ready (lines 476-481): the configured
repo path is non-empty after trimming. -/
def repoReady (repoPath : String) : Bool :=
  !(strIsEmpty (strTrim repoPath))

/-- Outcome of a push request at the controller level. -/
inductive PushOutcome where
  | ignored
  | shortCircuit (logMsg : String)
  | ran (result : Bool × String) (steps : List PushStep)
deriving Repr, DecidableEq

/-- Embedding of SimpleGitApp._on_push (lines 545-558) composed with the
worker run: a request while busy or unconfigured is ignored with no state
change; otherwise a porcelain status pre-check on the tracked path that
succeeds with empty output short-circuits with the nothing-to-push log
line; otherwise the four-step worker runs and clears the busy flag when
done.  Returns the final busy flag and the outcome. -/
def onPushRun (busy : Bool) (repoPath : String) (statusOut : ProcOutcome) (t : PushTrace) : Bool × PushOutcome :=
  if busy || !(repoReady repoPath) then (busy, .ignored)
  else
    let rs := git statusOut
    if rs.ok && strIsEmpty (strTrim rs.stdout) then
      (busy, .shortCircuit "Nothing to push — all tracked files are up to date.")
    else
      (false, .ran (doPushRun t).1 (doPushRun t).2)

/-- Outcome of a pull request at the controller level. -/
inductive PullOutcome where
  | ignored
  | ran (ok : Bool) (logMsg : String)
deriving Repr, DecidableEq

/-- Log line and success flag of the pull completion handler
(SimpleGitApp._pull_done, lines 531-541). -/
def pullDone (r : GitResult) : Bool × String :=
  if r.ok then
    (true, "Pull complete — " ++ (if strIsEmpty r.stdout then "Already up to date." else r.stdout))
  else
    (false, "Pull failed: " ++ r.stderr)

/-- Embedding of SimpleGitApp._on_pull (lines 516-522) composed with its
worker and completion handler: a request while busy or unconfigured is
ignored with no state change; otherwise the pull runs and the busy flag
ends cleared.  Returns the final busy flag and the outcome. -/
def onPullRun (busy : Bool) (repoPath : String) (out : ProcOutcome) : Bool × PullOutcome :=
  if busy || !(repoReady repoPath) then (busy, .ignored)
  else
    let p := pullDone (git out)
    (false, .ran p.1 p.2)

example : strTrim "  a b  " = "a b" := by decide
example : strLower "Nothing To COMMIT" = "nothing to commit" := by decide
example : containsSub "xx nothing to commit yy" "nothing to commit" = true := by decide
example : strLines "a\nimages/portfolio\nc" = ["a", "images/portfolio", "c"] := by decide
example : changedCount "M  a.txt\n?? b.txt" = 2 := by decide
example : git (.completed 0 " out \n" " err ") = ⟨true, "out", "err"⟩ := by decide

/-- Helper: a boolean prefix survives appending on the right. -/
theorem isPrefixOf_append_right {p q : List Char} (h : p.isPrefixOf q = true)
    (r : List Char) : p.isPrefixOf (q ++ r) = true := by
  rw [List.isPrefixOf_iff_prefix] at h ⊢
  exact h.trans (List.prefix_append q r)

/-- C6: loading a configuration object that is missing recognized keys
fills exactly the missing keys with the documented defaults (empty string
for remote_url and repo_path, main for branch, the built-in prefix for
commit_message) and leaves every key present in the input unchanged. -/
theorem load_config_fills_defaults (c : ConfigIn) :
    (c.remote_url = none → (load_config c).remote_url = "")
    ∧ (∀ s, c.remote_url = some s → (load_config c).remote_url = s)
    ∧ (c.repo_path = none → (load_config c).repo_path = "")
    ∧ (∀ s, c.repo_path = some s → (load_config c).repo_path = s)
    ∧ (c.branch = none → (load_config c).branch = "main")
    ∧ (∀ s, c.branch = some s → (load_config c).branch = s)
    ∧ (c.commit_message = none →
        (load_config c).commit_message = "Update portfolio via Simple Git")
    ∧ (∀ s, c.commit_message = some s → (load_config c).commit_message = s)
    ∧ (load_config c).extra = c.extra := by
  refine ⟨fun h => ?_, fun s h => ?_, fun h => ?_, fun s h => ?_, fun h => ?_,
    fun s h => ?_, fun h => ?_, fun s h => ?_, rfl⟩ <;>
    simp [load_config, DEFAULT_CONFIG, h]

/-- Witness for C6 at a concrete partial configuration. -/
theorem load_config_fills_defaults_witness :
    (load_config ⟨some "url", none, none, some "msg", []⟩).remote_url = "url"
    ∧ (load_config ⟨some "url", none, none, some "msg", []⟩).repo_path = ""
    ∧ (load_config ⟨some "url", none, none, some "msg", []⟩).branch = "main"
    ∧ (load_config ⟨some "url", none, none, some "msg", []⟩).commit_message = "msg" :=
  ⟨(load_config_fills_defaults ⟨some "url", none, none, some "msg", []⟩).2.1 "url" rfl,
   (load_config_fills_defaults ⟨some "url", none, none, some "msg", []⟩).2.2.1 rfl,
   (load_config_fills_defaults ⟨some "url", none, none, some "msg", []⟩).2.2.2.2.1 rfl,
   (load_config_fills_defaults ⟨some "url", none, none, some "msg", []⟩).2.2.2.2.2.2.2.1 "msg" rfl⟩

/-- C7: status classification of the tracked path.  A failed status query
classifies as error (taking precedence, as in the source, over the
missing check); with a successful query, an absent tracked path
classifies as missing regardless of the query output; with the path
present, empty porcelain output classifies as ok with the up-to-date
label, and non-empty output classifies as changed with a count equal to
the number of non-blank output lines. -/
theorem classify_status_cases (out : ProcOutcome) (ex : Bool) :
    ((git out).ok = false → classifyStatus out ex = (.errorTag, "unknown"))
    ∧ ((git out).ok = true → ex = false → classifyStatus out ex = (.missingTag, "missing"))
    ∧ ((git out).ok = true → ex = true → strIsEmpty (git out).stdout = true →
        classifyStatus out ex = (.okTag, "up to date"))
    ∧ ((git out).ok = true → ex = true → strIsEmpty (git out).stdout = false →
        classifyStatus out ex =
          (.changedTag,
           toString (changedCount (git out).stdout) ++ " file(s) changed — ready to push")) := by
  refine ⟨fun h => ?_, fun h he => ?_, fun h he hs => ?_, fun h he hs => ?_⟩
  · simp [classifyStatus, h]
  · subst he; simp [classifyStatus, h]
  · subst he; simp [classifyStatus, h, hs]
  · subst he; simp [classifyStatus, h, hs]

/-- Witness for C7 covering all four classifications. -/
theorem classify_status_cases_witness :
    classifyStatus (.completed 1 "" "boom") true = (StatusTag.errorTag, "unknown")
    ∧ classifyStatus (.completed 0 "out" "") false = (StatusTag.missingTag, "missing")
    ∧ classifyStatus (.completed 0 "" "") true = (StatusTag.okTag, "up to date")
    ∧ classifyStatus (.completed 0 "M  a.txt\n?? b.txt" "") true =
        (StatusTag.changedTag, "2 file(s) changed — ready to push") :=
  ⟨(classify_status_cases (.completed 1 "" "boom") true).1 (by decide),
   (classify_status_cases (.completed 0 "out" "") false).2.1 (by decide) rfl,
   (classify_status_cases (.completed 0 "" "") true).2.2.1 (by decide) rfl (by decide),
   ((classify_status_cases (.completed 0 "M  a.txt\n?? b.txt" "") true).2.2.2 (by decide) rfl
      (by decide)).trans (by decide)⟩

/-- C8: with the controller idle and configured, a porcelain status
pre-check on the tracked path that succeeds with empty output makes the
push request short-circuit with the nothing-to-push log line; the outcome
constructor carries no steps, so none of the pull, stage, commit, push
steps is executed. -/
theorem push_precheck_short_circuits (repoPath : String) (statusOut : ProcOutcome)
    (t : PushTrace) (hready : repoReady repoPath = true)
    (hok : (git statusOut).ok = true)
    (hempty : strIsEmpty (strTrim (git statusOut).stdout) = true) :
    onPushRun false repoPath statusOut t =
      (false, PushOutcome.shortCircuit "Nothing to push — all tracked files are up to date.") := by
  simp [onPushRun, hready, hok, hempty]

/-- Witness for C8 at a concrete idle state with clean status. -/
theorem push_precheck_short_circuits_witness :
    onPushRun false "/r" (.completed 0 "" "") ⟨.timedOut, .timedOut, .timedOut, .timedOut⟩ =
      (false, PushOutcome.shortCircuit "Nothing to push — all tracked files are up to date.") :=
  push_precheck_short_circuits "/r" (.completed 0 "" "")
    ⟨.timedOut, .timedOut, .timedOut, .timedOut⟩ (by decide) (by decide) (by decide)

/-- C10: the external-tool helpers are total functions of the subprocess
outcome (each equation below covers one failure shape, and the helpers
are total Lean functions over the whole outcome type, so every input is
mapped to a result rather than a raised error): a timeout becomes a
failure whose message says the command timed out, and any other
subprocess exception becomes a failure carrying the exception message. -/
theorem helpers_total_on_failures (e : String) (t : CloneTrace) :
    git ProcOutcome.timedOut = ⟨false, "", "Command timed out"⟩
    ∧ git (ProcOutcome.raised e) = ⟨false, "", e⟩
    ∧ test_remote ProcOutcome.timedOut = (false, "Connection timed out")
    ∧ test_remote (ProcOutcome.raised e) = (false, e)
    ∧ (t.cloneOut = ProcOutcome.timedOut → clone_sparse t = (false, "Clone timed out"))
    ∧ (t.cloneOut = ProcOutcome.raised e → clone_sparse t = (false, e))
    ∧ containsSub "Command timed out" "timed out" = true
    ∧ containsSub "Connection timed out" "timed out" = true
    ∧ containsSub "Clone timed out" "timed out" = true := by
  refine ⟨rfl, rfl, rfl, rfl, fun h => ?_, fun h => ?_, by decide, by decide, by decide⟩ <;>
    simp [clone_sparse, cloneSparseRun, cloneCmdErr, h]

/-- Witness for C10 at concrete timed-out and raised outcomes. -/
theorem helpers_total_on_failures_witness :
    clone_sparse ⟨ProcOutcome.timedOut, ProcOutcome.timedOut, ProcOutcome.timedOut,
        ProcOutcome.timedOut⟩ = (false, "Clone timed out")
    ∧ clone_sparse ⟨ProcOutcome.raised "oops", ProcOutcome.timedOut, ProcOutcome.timedOut,
        ProcOutcome.timedOut⟩ = (false, "oops") :=
  ⟨(helpers_total_on_failures "oops"
      ⟨ProcOutcome.timedOut, ProcOutcome.timedOut, ProcOutcome.timedOut,
       ProcOutcome.timedOut⟩).2.2.2.2.1 rfl,
   (helpers_total_on_failures "oops"
      ⟨ProcOutcome.raised "oops", ProcOutcome.timedOut, ProcOutcome.timedOut,
       ProcOutcome.timedOut⟩).2.2.2.2.2.1 rfl⟩

/-- C5: the ensure-sparse-checkout step is idempotent after bootstrap.
When the sparse-checkout list query succeeds and its output lines contain
the tracked path, only the list query itself runs — no init and no set —
and the step reports success at once; otherwise init --no-cone is re-run
and, when it succeeds, set with the tracked path follows. -/
theorem ensure_sparse_idempotent (t : EnsureTrace) :
    (ensureCond t = true → ensureSparseRun t = ((true, ""), [EnsureCall.listQuery]))
    ∧ (ensureCond t = false →
        ((git t.reInitOut).ok = true →
          (ensureSparseRun t).2 = [EnsureCall.listQuery, EnsureCall.reInit, EnsureCall.reSet])
        ∧ ((git t.reInitOut).ok = false →
          (ensureSparseRun t).2 = [EnsureCall.listQuery, EnsureCall.reInit])) := by
  constructor
  · intro h; simp [ensureSparseRun, h]
  · intro h
    constructor
    · intro hi
      cases h2 : (git t.reSetOut).ok <;> simp [ensureSparseRun, h, hi, h2]
    · intro hi; simp [ensureSparseRun, h, hi]

/-- Witness for C5: a list output naming the tracked path gives a pure
no-op, and a failed list query triggers init followed by set. -/
theorem ensure_sparse_idempotent_witness :
    ensureSparseRun ⟨.completed 0 "images/portfolio" "", .timedOut, .timedOut⟩ =
      ((true, ""), [EnsureCall.listQuery])
    ∧ (ensureSparseRun ⟨.completed 1 "" "", .completed 0 "" "", .completed 0 "" ""⟩).2 =
      [EnsureCall.listQuery, EnsureCall.reInit, EnsureCall.reSet] :=
  ⟨(ensure_sparse_idempotent ⟨.completed 0 "images/portfolio" "", .timedOut, .timedOut⟩).1
      (by decide),
   ((ensure_sparse_idempotent ⟨.completed 1 "" "", .completed 0 "" "", .completed 0 "" ""⟩).2
      (by decide)).1 (by decide)⟩

/-- C2: a failed pre-pull aborts the push operation before the stage,
commit and push steps, and a failed commit whose combined output does not
contain nothing to commit aborts it before the push step, each with the
step-labelled failure message. -/
theorem push_abort_on_failure (t : PushTrace) :
    ((git t.pullOut).ok = false →
      doPushRun t = ((false, "Pull failed before push: " ++ (git t.pullOut).stderr),
        [PushStep.pullStep]))
    ∧ ((git t.pullOut).ok = true → (git t.addOut).ok = true →
        (git t.commitOut).ok = false →
        containsSub (strLower ((git t.commitOut).stderr ++ (git t.commitOut).stdout))
          "nothing to commit" = false →
        doPushRun t = ((false, "Commit failed: " ++ (git t.commitOut).stderr),
          [PushStep.pullStep, PushStep.stageStep, PushStep.commitStep])) := by
  constructor
  · intro h; simp [doPushRun, h]
  · intro h1 h2 h3 h4; simp [doPushRun, h1, h2, h3, h4]

/-- Witness for C2: a rejected pre-pull stops everything after the pull
step, and a hook-declined commit stops everything after the commit step. -/
theorem push_abort_on_failure_witness :
    doPushRun ⟨.completed 1 "" "conflict", .timedOut, .timedOut, .timedOut⟩ =
      ((false, "Pull failed before push: conflict"), [PushStep.pullStep])
    ∧ doPushRun ⟨.completed 0 "" "", .completed 0 "" "",
        .completed 1 "" "hook declined", .timedOut⟩ =
      ((false, "Commit failed: hook declined"),
       [PushStep.pullStep, PushStep.stageStep, PushStep.commitStep]) :=
  ⟨((push_abort_on_failure ⟨.completed 1 "" "conflict", .timedOut, .timedOut, .timedOut⟩).1
      (by decide)).trans (by decide),
   ((push_abort_on_failure ⟨.completed 0 "" "", .completed 0 "" "",
        .completed 1 "" "hook declined", .timedOut⟩).2
      (by decide) (by decide) (by decide) (by decide)).trans (by decide)⟩

/-- C3 counterexample: the source reports Push complete. on a zero-exit
push even when the push stdout is non-empty, and on a non-zero exit it
reports stdout when stdout is non-empty, not stderr — the opposite of the
claimed selection in both positions. -/
theorem push_message_counterexample :
    (doPushRun ⟨.completed 0 "" "", .completed 0 "" "", .completed 0 "done" "",
        .completed 0 "Everything up-to-date" ""⟩).1 = (true, "Push complete.")
    ∧ (git (ProcOutcome.completed 0 "Everything up-to-date" "")).stdout ≠ ""
    ∧ "Push complete." ≠ "Everything up-to-date"
    ∧ (doPushRun ⟨.completed 0 "" "", .completed 0 "" "", .completed 0 "done" "",
        .completed 1 "out line" "err line"⟩).1 = (false, "out line")
    ∧ (git (ProcOutcome.completed 1 "out line" "err line")).stderr ≠ ""
    ∧ "out line" ≠ "err line" :=
  ⟨by decide, by decide, by decide, by decide, by decide, by decide⟩

/-- C3 (amended): once the push step is reached, a zero exit always
reports Push complete. (the push stdout is ignored), and a non-zero exit
reports stdout when non-empty and stderr otherwise. -/
theorem push_final_message (t : PushTrace)
    (h1 : (git t.pullOut).ok = true) (h2 : (git t.addOut).ok = true)
    (h3 : (git t.commitOut).ok = true) :
    (doPushRun t).1 =
      (if (git t.pushOut).ok then (true, "Push complete.")
       else (false, if strIsEmpty (git t.pushOut).stdout then (git t.pushOut).stderr
             else (git t.pushOut).stdout))
    ∧ (doPushRun t).2 =
      [PushStep.pullStep, PushStep.stageStep, PushStep.commitStep, PushStep.pushStep] := by
  constructor <;> cases hp : (git t.pushOut).ok <;> simp [doPushRun, h1, h2, h3, hp]

/-- Witness for C3 (amended): a non-fast-forward rejection with empty
stdout surfaces the stderr text verbatim. -/
theorem push_final_message_witness :
    (doPushRun ⟨.completed 0 "" "", .completed 0 "" "", .completed 0 "c" "",
        .completed 1 "" "rejected — non-fast-forward"⟩).1 =
      (false, "rejected — non-fast-forward") :=
  ((push_final_message ⟨.completed 0 "" "", .completed 0 "" "", .completed 0 "c" "",
      .completed 1 "" "rejected — non-fast-forward"⟩
    (by decide) (by decide) (by decide)).1).trans (by decide)

/-- Push trace in which the commit step exits zero while printing a
nothing-to-commit notice. -/
def silentCommitTrace : PushTrace :=
  ⟨.completed 0 "" "", .completed 0 "" "",
   .completed 0 "nothing to commit, working tree clean" "", .completed 0 "" ""⟩

/-- C1 counterexample: when the commit step exits zero with combined
output containing nothing to commit, the source does not recode the
operation — the push step still executes and the reported message is not
Nothing new to commit., so the claimed behaviour does not hold regardless
of the exit code. -/
theorem nothing_to_commit_counterexample :
    containsSub (strLower ((git silentCommitTrace.commitOut).stderr ++
        (git silentCommitTrace.commitOut).stdout)) "nothing to commit" = true
    ∧ (doPushRun silentCommitTrace).2.contains PushStep.pushStep = true
    ∧ (doPushRun silentCommitTrace).1 ≠ (true, "Nothing new to commit.") :=
  ⟨by decide, by decide, by decide⟩

/-- C1 (amended): when the commit step exits non-zero and its combined
stderr and stdout contain nothing to commit case-insensitively, the push
operation succeeds with message Nothing new to commit. and the
push-to-remote step is not executed. -/
theorem nothing_to_commit_success (t : PushTrace)
    (h1 : (git t.pullOut).ok = true) (h2 : (git t.addOut).ok = true)
    (h3 : (git t.commitOut).ok = false)
    (h4 : containsSub (strLower ((git t.commitOut).stderr ++ (git t.commitOut).stdout))
        "nothing to commit" = true) :
    doPushRun t = ((true, "Nothing new to commit."),
      [PushStep.pullStep, PushStep.stageStep, PushStep.commitStep]) := by
  simp [doPushRun, h1, h2, h3, h4]

/-- Witness for C1 (amended) at a failing commit with the notice in its
stdout. -/
theorem nothing_to_commit_success_witness :
    doPushRun ⟨.completed 0 "" "", .completed 0 "" "",
        .completed 1 "On branch main\nnothing to commit, working tree clean" "",
        .timedOut⟩ =
      ((true, "Nothing new to commit."),
       [PushStep.pullStep, PushStep.stageStep, PushStep.commitStep]) :=
  nothing_to_commit_success
    ⟨.completed 0 "" "", .completed 0 "" "",
     .completed 1 "On branch main\nnothing to commit, working tree clean" "", .timedOut⟩
    (by decide) (by decide) (by decide) (by decide)

/-- C4: when the bootstrap path runs, the steps are the blob-less
no-checkout clone, sparse-checkout init in non-cone mode, sparse-checkout
set to the tracked path, and checkout of the configured branch, in that
order; the executed steps are always an order-preserving prefix of those
four with no extra (rollback) step, the first failing step aborts the
whole operation, and the failure message carries the failing step name —
for the clone step via the Clone failed: completion log line, for the
later steps as the step-name prefix of the returned message. -/
theorem bootstrap_steps (t : CloneTrace) :
    (cloneSparseRun t).2.isPrefixOf
      [CloneStep.cloneRepo, CloneStep.sparseInitStep, CloneStep.sparseSetStep,
       CloneStep.checkoutStep] = true
    ∧ (∀ e, cloneCmdErr t.cloneOut = some e →
        cloneSparseRun t = ((false, e), [CloneStep.cloneRepo])
        ∧ (cloneStepName CloneStep.cloneRepo).data.isPrefixOf
            (cloneDoneLog false e).data = true)
    ∧ (cloneCmdErr t.cloneOut = none → (git t.sparseInitOut).ok = false →
        cloneSparseRun t =
          ((false, "sparse-checkout init failed: " ++ (git t.sparseInitOut).stderr),
           [CloneStep.cloneRepo, CloneStep.sparseInitStep])
        ∧ (cloneStepName CloneStep.sparseInitStep).data.isPrefixOf
            (cloneSparseRun t).1.2.data = true)
    ∧ (cloneCmdErr t.cloneOut = none → (git t.sparseInitOut).ok = true →
        (git t.sparseSetOut).ok = false →
        cloneSparseRun t =
          ((false, "sparse-checkout set failed: " ++ (git t.sparseSetOut).stderr),
           [CloneStep.cloneRepo, CloneStep.sparseInitStep, CloneStep.sparseSetStep])
        ∧ (cloneStepName CloneStep.sparseSetStep).data.isPrefixOf
            (cloneSparseRun t).1.2.data = true)
    ∧ (cloneCmdErr t.cloneOut = none → (git t.sparseInitOut).ok = true →
        (git t.sparseSetOut).ok = true → (git t.checkoutOut).ok = false →
        cloneSparseRun t =
          ((false, "checkout failed: " ++ (git t.checkoutOut).stderr),
           [CloneStep.cloneRepo, CloneStep.sparseInitStep, CloneStep.sparseSetStep,
            CloneStep.checkoutStep])
        ∧ (cloneStepName CloneStep.checkoutStep).data.isPrefixOf
            (cloneSparseRun t).1.2.data = true)
    ∧ (cloneCmdErr t.cloneOut = none → (git t.sparseInitOut).ok = true →
        (git t.sparseSetOut).ok = true → (git t.checkoutOut).ok = true →
        cloneSparseRun t = ((true, ""),
          [CloneStep.cloneRepo, CloneStep.sparseInitStep, CloneStep.sparseSetStep,
           CloneStep.checkoutStep])) := by
  refine ⟨?_, ?_, ?_, ?_, ?_, ?_⟩
  · rcases hc : cloneCmdErr t.cloneOut with _ | e <;>
      cases h1 : (git t.sparseInitOut).ok <;>
      cases h2 : (git t.sparseSetOut).ok <;>
      cases h3 : (git t.checkoutOut).ok <;>
      simp [cloneSparseRun, hc, h1, h2, h3]
  · intro e he
    refine ⟨by simp [cloneSparseRun, he], ?_⟩
    show ("Clone").data.isPrefixOf ("Clone failed: " ++ e).data = true
    rw [String.data_append]
    exact isPrefixOf_append_right (by decide) _
  · intro hc h1
    have hrun : cloneSparseRun t =
        ((false, "sparse-checkout init failed: " ++ (git t.sparseInitOut).stderr),
         [CloneStep.cloneRepo, CloneStep.sparseInitStep]) := by
      simp [cloneSparseRun, hc, h1]
    refine ⟨hrun, ?_⟩
    rw [hrun]
    show ("sparse-checkout init").data.isPrefixOf
      ("sparse-checkout init failed: " ++ (git t.sparseInitOut).stderr).data = true
    rw [String.data_append]
    exact isPrefixOf_append_right (by decide) _
  · intro hc h1 h2
    have hrun : cloneSparseRun t =
        ((false, "sparse-checkout set failed: " ++ (git t.sparseSetOut).stderr),
         [CloneStep.cloneRepo, CloneStep.sparseInitStep, CloneStep.sparseSetStep]) := by
      simp [cloneSparseRun, hc, h1, h2]
    refine ⟨hrun, ?_⟩
    rw [hrun]
    show ("sparse-checkout set").data.isPrefixOf
      ("sparse-checkout set failed: " ++ (git t.sparseSetOut).stderr).data = true
    rw [String.data_append]
    exact isPrefixOf_append_right (by decide) _
  · intro hc h1 h2 h3
    have hrun : cloneSparseRun t =
        ((false, "checkout failed: " ++ (git t.checkoutOut).stderr),
         [CloneStep.cloneRepo, CloneStep.sparseInitStep, CloneStep.sparseSetStep,
          CloneStep.checkoutStep]) := by
      simp [cloneSparseRun, hc, h1, h2, h3]
    refine ⟨hrun, ?_⟩
    rw [hrun]
    show ("checkout").data.isPrefixOf
      ("checkout failed: " ++ (git t.checkoutOut).stderr).data = true
    rw [String.data_append]
    exact isPrefixOf_append_right (by decide) _
  · intro hc h1 h2 h3
    simp [cloneSparseRun, hc, h1, h2, h3]

/-- Witness for C4: a failing sparse-checkout init aborts after two steps
with the step-labelled message. -/
theorem bootstrap_steps_witness :
    cloneSparseRun ⟨.completed 0 "" "", .completed 1 "" "bad", .timedOut, .timedOut⟩ =
      ((false, "sparse-checkout init failed: bad"),
       [CloneStep.cloneRepo, CloneStep.sparseInitStep]) :=
  (((bootstrap_steps ⟨.completed 0 "" "", .completed 1 "" "bad", .timedOut, .timedOut⟩).2.2.1
      (by decide) (by decide)).1).trans (by decide)

/-- C9 counterexample: while the busy flag is already set, a bootstrap
request is not ignored — the clone worker is still launched and runs its
steps — and a sparse-configure request is not ignored either — the list
query runs and the init and set calls are still made.  The busy flag is
therefore not checked before bootstrap or sparse-configure. -/
theorem busy_flag_counterexample :
    (doCloneRun true ⟨.completed 0 "" "", .completed 0 "" "", .completed 0 "" "",
        .completed 0 "" ""⟩).2 =
      some ((true, ""),
        [CloneStep.cloneRepo, CloneStep.sparseInitStep, CloneStep.sparseSetStep,
         CloneStep.checkoutStep])
    ∧ (ensureSparseStart true ⟨.completed 1 "" "", .completed 0 "" "",
        .completed 0 "" ""⟩).2 =
      some ((true, ""), [EnsureCall.listQuery, EnsureCall.reInit, EnsureCall.reSet]) :=
  ⟨by decide, by decide⟩

/-- C9 (amended): the busy flag is checked before starting pull and push
— a pull or push request made while the flag is set is silently ignored,
not queued, and leaves the flag unchanged — while bootstrap and
sparse-configure never check the flag: bootstrap sets it and launches its
worker unconditionally, and sparse-configure always runs in full, leaving
the flag alone on its no-op path and setting it on its configure path. -/
theorem busy_requests_ignored (repoPath : String) (pullOut statusOut : ProcOutcome)
    (t : PushTrace) (ct : CloneTrace) (et : EnsureTrace) :
    onPullRun true repoPath pullOut = (true, PullOutcome.ignored)
    ∧ onPushRun true repoPath statusOut t = (true, PushOutcome.ignored)
    ∧ (doCloneRun true ct).2.isSome = true
    ∧ (doCloneRun true ct).1 = true
    ∧ (ensureSparseStart true et).2 = some (ensureSparseRun et)
    ∧ (ensureSparseStart false et).1 = (if ensureCond et then false else true) :=
  ⟨by simp [onPullRun], by simp [onPushRun], rfl, rfl,
   by cases h : ensureCond et <;> simp [ensureSparseStart, h],
   by cases h : ensureCond et <;> simp [ensureSparseStart, h]⟩
